import Mathlib

/-!
# Verification of the store-backend pricing and checkout core

This file is a shallow embedding, in Lean 4, of the pricing and checkout core
of the store backend: tiered price resolution (`catalog/services.py`,
`catalog/models.py`), the discount engine (`discounts/engine.py`,
`discounts/models.py`), cart-to-order conversion (`orders/services.py`) and
the restocking hook (`orders/models.py`).

Conventions of the embedding:
* Python `Decimal` values are modelled as `Rat` (the arithmetic used by the
  code — addition, subtraction, multiplication, division by 100, `min`/`max`
  and comparison — is exact on the magnitudes involved).
* Django model rows become Lean structures; nullable columns become `Option`.
* The database is explicit state: lookup tables are total functions keyed by
  primary key, mutable tables are threaded through the functions that write
  them.  `transaction.atomic` is modelled by a wrapper that discards all state
  produced by a failed run and returns the initial state.
* Python exceptions are modelled with `Except PyError`; an attribute access
  on a missing attribute (e.g. `Discount.override_price`, whose field is
  commented out in `discounts/models.py`) raises `PyError.attributeError`.
* Enumerated `CharField` columns keep their string values from the source.
-/

/-- Python exception values raised by the embedded code. -/
inductive PyError where
  | valueError (msg : String)
  | attributeError (attr : String)
deriving DecidableEq, Repr

/-- Stable insertion (by a strict `lt` on keys) used to model Python's stable
`sorted`: an element is inserted after every element strictly smaller, hence
before existing elements with an equal key. -/
def insertByLt {α : Type} (lt : α → α → Bool) (x : α) : List α → List α
  | [] => [x]
  | y :: ys => if lt y x then y :: insertByLt lt x ys else x :: y :: ys

/-- Python's stable `sorted(xs, key=...)`, with the key order given as a
strict comparison `lt`. -/
def pySorted {α : Type} (lt : α → α → Bool) : List α → List α
  | [] => []
  | x :: xs => insertByLt lt x (pySorted lt xs)

theorem mem_insertByLt {α : Type} (lt : α → α → Bool) (x y : α) (l : List α) :
    y ∈ insertByLt lt x l ↔ y = x ∨ y ∈ l := by
  induction l with
  | nil => simp [insertByLt]
  | cons z zs ih =>
    simp only [insertByLt]
    by_cases h : lt z x = true
    · simp only [h, if_true, List.mem_cons, ih]
      tauto
    · simp only [h, if_false, Bool.false_eq_true, List.mem_cons]

theorem mem_pySorted {α : Type} (lt : α → α → Bool) (x : α) (l : List α) :
    x ∈ pySorted lt l ↔ x ∈ l := by
  induction l with
  | nil => simp [pySorted]
  | cons y ys ih =>
    simp [pySorted, mem_insertByLt, ih]

/-- `List.find?` returns the unique element satisfying `p`, regardless of
position, when exactly one element of the list satisfies `p`. -/
theorem find?_eq_of_unique {α : Type} (p : α → Bool) (l : List α) (t : α)
    (ht : t ∈ l) (hp : p t = true) (hu : ∀ x ∈ l, p x = true → x = t) :
    l.find? p = some t := by
  induction l with
  | nil => cases ht
  | cons y ys ih =>
    rw [List.find?_cons]
    by_cases hy : p y = true
    · have hyt : y = t := hu y (List.mem_cons_self y ys) hy
      rw [hy]
      rw [hyt]
    · have hyt : y ≠ t := fun h => hy (h ▸ hp)
      have ht' : t ∈ ys := by
        rcases List.mem_cons.mp ht with h | h
        · exact absurd h.symm hyt
        · exact h
      have hyf : p y = false := by
        cases hpy : p y
        · rfl
        · exact absurd hpy hy
      rw [hyf]
      exact ih ht' (fun x hx hpx => hu x (List.mem_cons_of_mem y hx) hpx)

/-! ## Catalog: variants, tiers and price resolution

Embedding of `catalog/models.py` (`ProductVariant`, `TieredPrice`) and
`catalog/services.py` (`resolve_price`). -/

/-- `catalog.models.TieredPrice` — one price slice of a tiered variant.
`basis` is `"quantity"` or `"weight"`; the applicable range is closed-open
`[min_value, max_value)`, with `max_value = none` meaning unbounded. -/
structure TieredPrice where
  id : Nat
  basis : String
  unit : String
  min_value : Rat
  max_value : Option Rat
  sale_price : Rat
  cost_price : Rat
  wholesale_price : Rat
deriving DecidableEq, Repr

/-- `TieredPrice.matches(qty, weight)`: pick the measure matching the tier's
basis; `None` never matches; otherwise apply the half-open range rule
(`v >= min_value` when `max_value` is null, else `min_value <= v < max_value`). -/
def TieredPrice.matchesB (t : TieredPrice) (qty weight : Option Rat) : Bool :=
  let v := if t.basis = "quantity" then qty else weight
  match v with
  | none => false
  | some v =>
    match t.max_value with
    | none => decide (t.min_value ≤ v)
    | some mx => decide (t.min_value ≤ v ∧ v < mx)

/-- `catalog.models.ProductVariant` — a sellable unit.  `name` stands for the
display string `str(variant)`; `stock` is the mutable inventory column
(`PositiveIntegerField`, modelled as `Int` so that non-negativity is a
provable invariant rather than a typing artifact); `tiers` are the variant's
`TieredPrice` rows in database order. -/
structure Variant where
  name : String
  pricing_mode : String
  sale_price : Rat
  cost_price : Rat
  wholesale_price : Rat
  stock : Int
  tiers : List TieredPrice
deriving DecidableEq, Repr

/-- Strict comparison for Python key `(x.min_value, x.sale_price)`. -/
def keyMinSaleLt (a b : TieredPrice) : Bool :=
  decide (a.min_value < b.min_value ∨
    (a.min_value = b.min_value ∧ a.sale_price < b.sale_price))

/-- Strict comparison for the queryset ordering `order_by("sale_price", "min_value")`. -/
def keySaleMinLt (a b : TieredPrice) : Bool :=
  decide (a.sale_price < b.sale_price ∨
    (a.sale_price = b.sale_price ∧ a.min_value < b.min_value))

/-- `catalog.services.resolve_price(variant, quantity=..., weight=...)`.
Returns `(sale_price, basis_used, tier_id?)`. -/
def resolve_price (variant : Variant) (quantity weight : Option Rat) :
    Rat × Option String × Option Nat :=
  if variant.pricing_mode = "flat" ∨ variant.tiers = [] then
    (variant.sale_price, none, none)
  else
    let candidates :=
      (if quantity.isSome then variant.tiers.filter (fun t => t.basis = "quantity") else [])
      ++ (if weight.isSome then variant.tiers.filter (fun t => t.basis = "weight") else [])
    if candidates = [] then
      -- no measure supplied: fall back to `tiers.order_by("sale_price", "min_value").first()`
      match pySorted keySaleMinLt variant.tiers with
      | tp :: _ => (tp.sale_price, some tp.basis, some tp.id)
      | [] => (variant.sale_price, none, none)
    else
      match (pySorted keyMinSaleLt candidates).find? (fun t => t.matchesB quantity weight) with
      | some tp => (tp.sale_price, some tp.basis, some tp.id)
      | none =>
        -- fallback: nearest (smallest min_value) among the candidates
        match pySorted keyMinSaleLt candidates with
        | tp :: _ => (tp.sale_price, some tp.basis, some tp.id)
        | [] => (variant.sale_price, none, none)  -- unreachable: candidates nonempty

/-! ## Carts

Embedding of `carts/models.py` (`Cart`, `CartItem`).  A cart item references
its variant/bundle rows by primary key; catalog rows are looked up through the
database state. -/

/-- `carts.models.CartItem` — one cart line, either a variant line or a bundle
line.  `unit_price` is the price snapshot taken at add-time. -/
structure CartItem where
  line_type : String
  variant_id : Option Nat
  bundle_id : Option Nat
  quantity : Nat
  unit_price : Rat
deriving DecidableEq, Repr

/-- `carts.models.Cart`. `updated_at` is the last-update timestamp (minutes on
an arbitrary clock), `is_converted` the conversion flag stored on the row. -/
structure Cart where
  id : Nat
  user_id : Nat
  items : List CartItem
  updated_at : Option Rat
  is_converted : Bool
deriving DecidableEq, Repr

/-- The structural part of `CartItem.clean()` (enforced on every save):
the foreign key matching `line_type` is set and the other one is null.
The stock checks of `clean()` are best-effort against add-time stock and are
deliberately not part of this invariant. -/
def CartItem.structValid (it : CartItem) : Prop :=
  (it.line_type = "variant" ∧ it.variant_id.isSome ∧ it.bundle_id = none)
  ∨ (it.line_type = "bundle" ∧ it.bundle_id.isSome ∧ it.variant_id = none)

instance (it : CartItem) : Decidable it.structValid := by
  unfold CartItem.structValid
  infer_instance

/-! ## Discounts

Embedding of `discounts/models.py` (`Discount`) and `discounts/engine.py`
(`DiscountEngine`). -/

/-- `discounts.models.Discount`.  Note that the `override_price` field is
commented out in the source model, so the attribute does not exist on a
`Discount` instance; `target_variants` is the set of targeted variant ids. -/
structure Discount where
  id : Nat
  name : String
  code : Option String
  discount_type : String
  value_type : String
  value : Rat
  is_active : Bool
  starts_at : Option Rat
  ends_at : Option Rat
  priority : Int
  stackable : Bool
  exclusive : Bool
  min_cart_subtotal : Option Rat
  min_abandoned_minutes : Option Int
  max_profit_share : Rat
  target_variants : List Nat
deriving DecidableEq, Repr

/-- `Discount.is_currently_active()`: active flag set and `now` within the
optional `[starts_at, ends_at]` window. -/
def Discount.isCurrentlyActive (d : Discount) (now : Rat) : Bool :=
  if ¬d.is_active then false
  else if d.starts_at.any (fun s => decide (now < s)) then false
  else if d.ends_at.any (fun e => decide (e < now)) then false
  else true

/-- `DiscountEngine.GLOBAL_MAX_PROFIT_SHARE = Decimal("0.25")`. -/
def GLOBAL_MAX_PROFIT_SHARE : Rat := 0.25

/-- `DiscountEngine._compute_cart_totals_and_profit(cart)`: returns
`(original_total, cost_total, profit)` where `original_total` sums
`unit_price * quantity` over all lines, `cost_total` sums
`variant.cost_price * quantity` over variant lines only (bundle lines
contribute no cost), and `profit = max(original_total - cost_total, 0)`. -/
def computeCartTotalsAndProfit (variants : Nat → Variant) (items : List CartItem) :
    Rat × Rat × Rat :=
  let original_total := items.foldl
    (fun acc it => acc + it.unit_price * (it.quantity : Rat)) 0
  let cost_total := items.foldl
    (fun acc it =>
      match it.variant_id with
      | some vid => acc + (variants vid).cost_price * (it.quantity : Rat)
      | none => acc) 0
  (original_total, cost_total, max (original_total - cost_total) 0)

/-- Python truthiness of the optional coupon code argument
(`not coupon_code` — both `None` and `""` are falsy). -/
def couponFalsy (coupon_code : Option String) : Bool :=
  match coupon_code with
  | none => true
  | some s => s = ""

/-- One pass of the eligibility filter of `DiscountEngine._eligible_discounts`
over the discount table (in table order).  Raises `AttributeError` where the
source would: a coupon-type discount with a null `code` column reaches
`d.code.lower()` once a coupon code was supplied. -/
def eligibleFilter (variants : Nat → Variant) (cart : Cart)
    (coupon_code : Option String) (now : Rat) :
    List Discount → Except PyError (List Discount)
  | [] => .ok []
  | d :: rest =>
    if ¬d.isCurrentlyActive now then eligibleFilter variants cart coupon_code now rest
    else
      -- Coupon constraint
      let couponSkip : Except PyError Bool :=
        if d.discount_type = "coupon" then
          if couponFalsy coupon_code then .ok true
          else
            match d.code, coupon_code with
            | none, _ => .error (.attributeError "lower")
            | some dc, some cc => .ok (dc.toLower ≠ cc.toLower)
            | some _, none => .ok true
        else .ok false
      match couponSkip with
      | .error e => .error e
      | .ok true => eligibleFilter variants cart coupon_code now rest
      | .ok false =>
        -- Cart subtotal condition (based on current cart, pre-discount)
        let original_total := (computeCartTotalsAndProfit variants cart.items).1
        if d.min_cart_subtotal.any (fun m => decide (original_total < m)) then
          eligibleFilter variants cart coupon_code now rest
        else
          -- Abandoned cart condition: idle for >= min_abandoned_minutes
          let abandonedSkip : Bool :=
            if d.discount_type = "abandoned_cart" ∧ d.min_abandoned_minutes.isSome then
              match cart.updated_at with
              | none => true
              | some upd =>
                d.min_abandoned_minutes.any (fun m => decide (now - upd < (m : Rat)))
            else false
          if abandonedSkip then eligibleFilter variants cart coupon_code now rest
          else
            match eligibleFilter variants cart coupon_code now rest with
            | .error e => .error e
            | .ok tl => .ok (d :: tl)

/-- Strict comparison for `eligible.sort(key=lambda disc: disc.priority)`. -/
def priorityLt (a b : Discount) : Bool := decide (a.priority < b.priority)

/-- `DiscountEngine._eligible_discounts(cart, coupon_code)`: filter the
discount table, then stable-sort ascending by priority. -/
def eligibleDiscounts (variants : Nat → Variant) (discounts : List Discount)
    (cart : Cart) (coupon_code : Option String) (now : Rat) :
    Except PyError (List Discount) :=
  match eligibleFilter variants cart coupon_code now discounts with
  | .error e => .error e
  | .ok l => .ok (pySorted priorityLt l)

/-- The per-line part of `_calculate_discount_amount` for
`product_override` / `flash_sale` discounts.  The source first evaluates
`discount.override_price is not None`; the `override_price` field is commented
out in `discounts/models.py`, so this attribute read raises `AttributeError`
on the first qualifying line, and the percent/fixed per-line arithmetic below
it in the source is unreachable. -/
def calcProductAmount (d : Discount) : List CartItem → Except PyError Rat
  | [] => .ok 0
  | it :: rest =>
    match it.variant_id with
    | none => calcProductAmount d rest
    | some vid =>
      if d.target_variants ≠ [] ∧ vid ∉ d.target_variants then
        calcProductAmount d rest
      else
        .error (.attributeError "override_price")

/-- `DiscountEngine._calculate_discount_amount(discount, cart, current_total)`:
raw discount amount before profit caps, floored at 0. -/
def calculateDiscountAmount (d : Discount) (items : List CartItem)
    (current_total : Rat) : Except PyError Rat :=
  if d.discount_type = "product_override" ∨ d.discount_type = "flash_sale" then
    match calcProductAmount d items with
    | .error e => .error e
    | .ok amount => .ok (max amount 0)
  else if d.discount_type = "cart_subtotal" ∨ d.discount_type = "coupon"
      ∨ d.discount_type = "abandoned_cart" then
    let amount :=
      if d.value_type = "percent" then current_total * d.value / 100
      else min d.value current_total
    .ok (max amount 0)
  else
    .ok (max 0 0)

/-- One applied-discount record appended by `apply_discounts`.  The source
stores a dict `{id, name, type, value_type, value, applied_amount, priority}`;
all fields but `applied_amount` are copies of the discount's columns, so the
record keeps the discount itself together with the applied amount. -/
structure AppliedDiscount where
  disc : Discount
  applied_amount : Rat
deriving DecidableEq, Repr

/-- The discount-application loop of `DiscountEngine.apply_discounts`
(lines 116–158 of `discounts/engine.py`), iterating eligible discounts in
priority order while tracking `global_discount_used`, `current_total` and the
applied list. -/
def applyLoop (items : List CartItem) (profit_before global_max_discount : Rat) :
    List Discount → Rat → Rat → List AppliedDiscount →
    Except PyError (Rat × Rat × List AppliedDiscount)
  | [], used, current, acc => .ok (used, current, acc)
  | d :: rest, used, current, acc =>
    let disc_max_for_this := profit_before * min d.max_profit_share GLOBAL_MAX_PROFIT_SHARE
    let remaining_global_room := global_max_discount - used
    if remaining_global_room ≤ 0 then .ok (used, current, acc)  -- break
    else
      let allowed_for_this := min disc_max_for_this remaining_global_room
      if allowed_for_this ≤ 0 then
        applyLoop items profit_before global_max_discount rest used current acc  -- continue
      else
        match calculateDiscountAmount d items current with
        | .error e => .error e
        | .ok raw =>
          let discount_amount := min raw allowed_for_this
          if discount_amount ≤ 0 then
            applyLoop items profit_before global_max_discount rest used current acc
          else
            let used' := used + discount_amount
            let current' := current - discount_amount
            let acc' := acc ++ [⟨d, discount_amount⟩]
            if d.exclusive then .ok (used', current', acc')  -- break
            else if ¬d.stackable then .ok (used', current', acc')  -- break
            else applyLoop items profit_before global_max_discount rest used' current' acc'

/-- `DiscountApplicationResult` (without the cart back-reference). -/
structure DiscountApplicationResult where
  original_total : Rat
  discounted_total : Rat
  applied_discounts : List AppliedDiscount
  total_discount : Rat
  profit_before : Rat
  profit_after : Rat
deriving DecidableEq, Repr

/-- `DiscountEngine.apply_discounts(cart, coupon_code)`: the pure discount
calculator.  Returns the result, or the exception the source run would raise. -/
def applyDiscounts (variants : Nat → Variant) (discounts : List Discount)
    (cart : Cart) (coupon_code : Option String) (now : Rat) :
    Except PyError DiscountApplicationResult :=
  let t := computeCartTotalsAndProfit variants cart.items
  let original_total := t.1
  let cost_total := t.2.1
  let profit_before := t.2.2
  if profit_before ≤ 0 then
    .ok ⟨original_total, original_total, [], 0, profit_before, profit_before⟩
  else
    let global_max_discount := profit_before * GLOBAL_MAX_PROFIT_SHARE
    match eligibleDiscounts variants discounts cart coupon_code now with
    | .error e => .error e
    | .ok elig =>
      match applyLoop cart.items profit_before global_max_discount elig 0 original_total [] with
      | .error e => .error e
      | .ok (used, current, applied) =>
        .ok ⟨original_total, max current 0, applied, used,
          profit_before, max (current - cost_total) 0⟩

/-! ## Orders: data model and checkout transaction

Embedding of `orders/models.py` (`Order`, `OrderLine`), `accounts/models.py`
(`ShippingAddress`) and `orders/services.py` (`OrderService.create_from_cart`).
The database is a `DB` record; `transaction.atomic` is the committed wrapper
`createFromCart`, which returns the initial database unchanged whenever the
raw run raises. -/

/-- `catalog.models.BundleItem` — one constituent line of a bundle. -/
structure BundleItem where
  variant_id : Nat
  quantity : Nat
deriving DecidableEq, Repr

/-- `catalog.models.Bundle` (name, fixed price and constituent items). -/
structure Bundle where
  name : String
  bundle_price : Rat
  items : List BundleItem
deriving DecidableEq, Repr

/-- `accounts.models.ShippingAddress` — the per-customer shipping profile. -/
structure ShippingAddress where
  full_name : String
  city_id : Int
  city : String
  region_id : Int
  region : String
  location : String
  client_mobile2 : Option String
deriving DecidableEq, Repr

/-- `ShippingAddress.has_shipping_info()`: `bool(self.city_id and self.region_id)`
— both integers truthy (non-zero). -/
def ShippingAddress.hasShippingInfo (p : ShippingAddress) : Bool :=
  p.city_id ≠ 0 ∧ p.region_id ≠ 0

/-- The `shipping_data` dict argument of `create_from_cart` (each key either
absent/`None` — `none` — or present with a value; an empty string is a present
falsy value). -/
structure ShippingDataIn where
  full_name : Option String
  city_id : Option Int
  city : Option String
  region_id : Option Int
  region : Option String
  location : Option String
  client_mobile2 : Option String
deriving DecidableEq, Repr

/-- Python truthiness of an optional string value. -/
def truthyS : Option String → Bool
  | none => false
  | some s => s ≠ ""

/-- Python truthiness of an optional integer value (`0` is falsy). -/
def truthyI : Option Int → Bool
  | none => false
  | some n => n ≠ 0

/-- `shipping_data and any(shipping_data.values())`. -/
def hasAnyShipping : Option ShippingDataIn → Bool
  | none => false
  | some sd =>
    truthyS sd.full_name || truthyI sd.city_id || truthyS sd.city
      || truthyI sd.region_id || truthyS sd.region || truthyS sd.location
      || truthyS sd.client_mobile2

/-- `shipping_data.get(f) in (None, "")` for a string-valued field. -/
def missingS : Option String → Bool
  | none => true
  | some s => s = ""

/-- `shipping_data.get(f) in (None, "")` for an integer-valued field
(any present integer, including 0, passes). -/
def missingI : Option Int → Bool
  | none => true
  | some _ => false

/-- `orders.models.Order` — the order row.  `shipping_profile_set` records
whether the snapshot came from a profile; shipping snapshot columns are copied
values.  `discount_breakdown` is modelled by its payload fields. -/
structure DiscountBreakdown where
  applied_discounts : List AppliedDiscount
  engine_discount_total : Rat
  extra_manual_discount : Rat
  coupon_code : Option String
deriving DecidableEq, Repr

/-- `orders.models.Order` (the columns written by `create_from_cart`). -/
structure Order where
  code : String
  customer : Nat
  order_type : String
  delivery_method : String
  status : String
  related_order : Option Nat
  shipping_profile_set : Bool
  full_name : String
  city_id : Int
  city : String
  region_id : Int
  region : String
  location : String
  client_mobile2 : String
  items_total : Rat
  shipping_cost : Rat
  discount_total : Rat
  grand_total : Rat
  discount_breakdown : Option DiscountBreakdown
  profit_before_discounts : Rat
  profit_after_discounts : Rat
  is_free_shipping : Bool
  restock_processed : Bool
  notes : String
deriving DecidableEq, Repr

/-- `Order.is_issue_order`. -/
def Order.isIssueOrder (o : Order) : Bool :=
  o.order_type = "replacement" ∨ o.order_type = "exchange" ∨ o.order_type = "cancellation"

/-- `orders.models.OrderLine` — an immutable snapshot of a cart line,
referencing its order by code. -/
structure OrderLine where
  order_code : String
  line_type : String
  variant_id : Option Nat
  bundle_id : Option Nat
  quantity : Nat
  unit_price : Rat
  subtotal : Rat
  product_name : String
  bundle_name : String
deriving DecidableEq, Repr

/-- The database state touched by checkout and restocking. -/
structure DB where
  variants : Nat → Variant
  bundles : Nat → Bundle
  profiles : Nat → Option ShippingAddress
  orders : List Order
  orderLines : List OrderLine
  cartConverted : Nat → Bool

/-- `OrderService._get_or_update_shipping_profile(customer, shipping_data)`:
create/update the customer's profile from supplied data (validating required
fields first), or require an existing complete profile.  Returns the resolved
profile and the updated profile table. -/
def getOrUpdateShippingProfile (customerId : Nat) (sd : Option ShippingDataIn)
    (profiles : Nat → Option ShippingAddress) :
    Except PyError (ShippingAddress × (Nat → Option ShippingAddress)) :=
  let profile := profiles customerId
  if hasAnyShipping sd then
    match sd with
    | none => .error (.valueError "unreachable")  -- hasAnyShipping none = false
    | some s =>
      if missingI s.city_id then
        .error (.valueError ("Missing required shipping field: " ++ "city_id"))
      else if missingS s.city then
        .error (.valueError ("Missing required shipping field: " ++ "city"))
      else if missingI s.region_id then
        .error (.valueError ("Missing required shipping field: " ++ "region_id"))
      else if missingS s.region then
        .error (.valueError ("Missing required shipping field: " ++ "region"))
      else if missingS s.location then
        .error (.valueError ("Missing required shipping field: " ++ "location"))
      else
        let mobile2 := match s.client_mobile2 with
          | some m => if m = "" then none else some m
          | none => none
        match profile with
        | none =>
          let p : ShippingAddress :=
            ⟨s.full_name.getD "", (s.city_id.getD 0), s.city.getD "",
              (s.region_id.getD 0), s.region.getD "", s.location.getD "", mobile2⟩
          .ok (p, fun i => if i = customerId then some p else profiles i)
        | some p0 =>
          -- setattr for every non-None default; only client_mobile2 can be None
          let p : ShippingAddress :=
            ⟨s.full_name.getD "", (s.city_id.getD 0), s.city.getD "",
              (s.region_id.getD 0), s.region.getD "", s.location.getD "",
              match mobile2 with | some m => some m | none => p0.client_mobile2⟩
          .ok (p, fun i => if i = customerId then some p else profiles i)
  else
    match profile with
    | some p =>
      if p.hasShippingInfo then .ok (p, profiles)
      else .error (.valueError
        "Shipping information is missing. Please provide it once to your profile.")
    | none => .error (.valueError
      "Shipping information is missing. Please provide it once to your profile.")

/-- Step 1 of `create_from_cart`: resolve the shipping profile — mandatory for
delivery orders, optional for pickup (but still updated when data is given). -/
def resolveShippingStep (customerId : Nat) (delivery_method : String)
    (sd : Option ShippingDataIn) (profiles : Nat → Option ShippingAddress) :
    Except PyError (Option ShippingAddress × (Nat → Option ShippingAddress)) :=
  if delivery_method = "delivery" then
    match getOrUpdateShippingProfile customerId sd profiles with
    | .error e => .error e
    | .ok (p, ps) => .ok (some p, ps)
  else
    if hasAnyShipping sd then
      match getOrUpdateShippingProfile customerId sd profiles with
      | .error e => .error e
      | .ok (p, ps) => .ok (some p, ps)
    else .ok (profiles customerId, profiles)

/-- `order_type in ("normal", "wholesale")` — revenue order types, the ones
that run the discount engine and decrement stock. -/
def isRevenue (order_type : String) : Bool :=
  order_type = "normal" ∨ order_type = "wholesale"

/-- `order_type in ("wholesale", "replacement", "exchange", "cancellation")`. -/
def isAdminOnlyType (order_type : String) : Bool :=
  order_type = "wholesale" ∨ order_type = "replacement"
    ∨ order_type = "exchange" ∨ order_type = "cancellation"

/-- `generate_order_code()` retry loop: try `c0`, regenerate up to three times
while the code is already taken, and keep the fourth candidate regardless. -/
def pickCode (taken : String → Bool) (c0 c1 c2 c3 : String) : String :=
  if ¬taken c0 then c0
  else if ¬taken c1 then c1
  else if ¬taken c2 then c2
  else c3

/-- Error message of the variant-line conditional stock update. -/
def insufficientVariantMsg : String :=
  "Insufficient stock for variant during order creation."

/-- Error message of the bundle-constituent conditional stock update. -/
def insufficientBundleMsg : String :=
  "Insufficient stock for bundle contents during order creation."

/-- Decrement a variant's stock column by `q` (`F("stock") - q`). -/
def decStock (vs : Nat → Variant) (vid : Nat) (q : Nat) : Nat → Variant :=
  fun i => if i = vid then
    let v := vs vid
    { v with stock := v.stock - (q : Int) }
  else vs i

/-- The bundle-constituent decrement loop of step 4 of `create_from_cart`:
for every `BundleItem`, conditionally decrement its variant's stock by
`bundle-item quantity × line quantity`, aborting on insufficiency. -/
def processBundleItems (qty : Nat) :
    List BundleItem → (Nat → Variant) → Option PyError × (Nat → Variant)
  | [], vs => (none, vs)
  | bi :: bis, vs =>
    let required := bi.quantity * qty
    if ((required : Int)) ≤ (vs bi.variant_id).stock then
      processBundleItems qty bis (decStock vs bi.variant_id required)
    else (some (.valueError insufficientBundleMsg), vs)

/-- The cart-line loop of step 4 of `create_from_cart`: copy cart items to
order lines, decrementing stock (conditionally) for revenue order types.
Returns the first error raised (if any), the variant table after the
decrements performed so far, and the order-line rows created so far. -/
def processLines (code : String) (order_type : String) (bundles : Nat → Bundle) :
    List CartItem → (Nat → Variant) → List OrderLine →
    Option PyError × (Nat → Variant) × List OrderLine
  | [], vs, acc => (none, vs, acc)
  | it :: rest, vs, acc =>
    if it.line_type = "variant" then
      match it.variant_id with
      | some vid =>
        let fetched := vs vid
        if isRevenue order_type then
          if ((it.quantity : Int)) ≤ (vs vid).stock then
            let vs' := decStock vs vid it.quantity
            let line : OrderLine :=
              ⟨code, "variant", some vid, none, it.quantity, it.unit_price,
                it.unit_price * (it.quantity : Rat), fetched.name, ""⟩
            processLines code order_type bundles rest vs' (acc ++ [line])
          else (some (.valueError insufficientVariantMsg), vs, acc)
        else
          let line : OrderLine :=
            ⟨code, "variant", some vid, none, it.quantity, it.unit_price,
              it.unit_price * (it.quantity : Rat), fetched.name, ""⟩
          processLines code order_type bundles rest vs (acc ++ [line])
      | none =>
        -- variant is None: no stock check (`if variant and ...` is false);
        -- `product_name=str(variant)` snapshots the string "None"
        let line : OrderLine :=
          ⟨code, "variant", none, none, it.quantity, it.unit_price,
            it.unit_price * (it.quantity : Rat), "None", ""⟩
        processLines code order_type bundles rest vs (acc ++ [line])
    else if it.line_type = "bundle" then
      match it.bundle_id with
      | some bid =>
        let b := bundles bid
        let mkLine : OrderLine :=
          ⟨code, "bundle", none, some bid, it.quantity, it.unit_price,
            it.unit_price * (it.quantity : Rat), "", b.name⟩
        if isRevenue order_type then
          match processBundleItems it.quantity b.items vs with
          | (some e, vs') => (some e, vs', acc)
          | (none, vs') =>
            processLines code order_type bundles rest vs' (acc ++ [mkLine])
        else processLines code order_type bundles rest vs (acc ++ [mkLine])
      | none =>
        -- bundle is None: the decrement guard is skipped, but
        -- `bundle_name=bundle.name` reads an attribute of None
        (some (.attributeError "name"), vs, acc)
    else
      -- neither branch of the if/elif chain: the item is silently skipped
      processLines code order_type bundles rest vs acc

/-- Non-database inputs of a `create_from_cart` call that the service reads
from its environment: the current time, the discount table and the stream of
four candidate order codes produced by `generate_order_code`. -/
structure Env where
  now : Rat
  discounts : List Discount
  c0 : String
  c1 : String
  c2 : String
  c3 : String

/-- The keyword arguments of `OrderService.create_from_cart`. -/
structure OrderArgs where
  cart : Cart
  created_by_staff : Bool
  created_by_superuser : Bool
  order_type : String
  delivery_method : String
  shipping_data : Option ShippingDataIn
  related_order : Option Nat
  is_free_shipping : Bool
  shipping_cost : Rat
  extra_manual_discount : Rat
  notes : String
  customer : Option Nat
  coupon_code : Option String

/-- The engine-or-manual totals of steps 1–2 of `create_from_cart`:
`(original_total, engine_discount_total, discounted_total, profit_before,
profit_after, applied_discounts)`. -/
def orderTotals (variants : Nat → Variant) (discounts : List Discount)
    (cart : Cart) (coupon_code : Option String) (now : Rat) (order_type : String) :
    Except PyError (Rat × Rat × Rat × Rat × Rat × List AppliedDiscount) :=
  if isRevenue order_type then
    match applyDiscounts variants discounts cart coupon_code now with
    | .error e => .error e
    | .ok r =>
      .ok (r.original_total, r.total_discount, r.discounted_total,
        r.profit_before, r.profit_after, r.applied_discounts)
  else
    -- issue orders: compute basic totals and profit, no marketing discounts
    let t := computeCartTotalsAndProfit variants cart.items
    .ok (t.1, 0, t.1, t.2.2, t.2.2, [])

/-- The body of `OrderService.create_from_cart` (before the `transaction.atomic`
commit/rollback decision): either the produced order together with the
database state to commit, or the exception that aborts the transaction.
The source creates the order row with `grand_total = 0` before the line loop
and updates it afterwards with `save(update_fields=[...])`; since both writes
live inside the same atomic transaction, the committed state here carries the
final row directly — the intermediate skeleton is never observable. -/
def createFromCartRaw (env : Env) (args : OrderArgs) (db : DB) :
    Except PyError (Order × DB) :=
  let customerId := args.customer.getD args.cart.user_id
  if isAdminOnlyType args.order_type
      ∧ ¬args.created_by_staff ∧ ¬args.created_by_superuser then
    .error (.valueError "Admin/employee required to create this order type.")
  else
    match resolveShippingStep customerId args.delivery_method args.shipping_data
        db.profiles with
    | .error e => .error e
    | .ok (profileOpt, profiles') =>
      match orderTotals db.variants env.discounts args.cart args.coupon_code
          env.now args.order_type with
      | .error e => .error e
      | .ok (original_total, engine_discount_total, discounted_total,
          profit_before, profit_after, applied_discounts) =>
        -- 2) optional manual discount, clamped to [0, discounted_total]
        let extra0 := max args.extra_manual_discount 0
        let extra := if discounted_total < extra0 then discounted_total else extra0
        let total_discount := engine_discount_total + extra
        let items_total_after_all_discounts := discounted_total - extra
        -- 3) order code and order skeleton
        let code := pickCode (fun c => db.orders.any (fun o => o.code = c))
          env.c0 env.c1 env.c2 env.c3
        let shipping_cost := if args.is_free_shipping then 0 else args.shipping_cost
        let order0 : Order :=
          { code := code
            customer := customerId
            order_type := args.order_type
            delivery_method := args.delivery_method
            status := "pending"
            related_order := args.related_order
            shipping_profile_set := profileOpt.isSome
            full_name := (profileOpt.map (·.full_name)).getD ""
            city_id := (profileOpt.map (·.city_id)).getD 0
            city := (profileOpt.map (·.city)).getD ""
            region_id := (profileOpt.map (·.region_id)).getD 0
            region := (profileOpt.map (·.region)).getD ""
            location := (profileOpt.map (·.location)).getD ""
            client_mobile2 := (profileOpt.bind (·.client_mobile2)).getD ""
            items_total := original_total
            shipping_cost := shipping_cost
            discount_total := total_discount
            grand_total := 0
            discount_breakdown :=
              if applied_discounts ≠ [] ∨ extra ≠ 0 then
                some ⟨applied_discounts, engine_discount_total, extra, args.coupon_code⟩
              else none
            profit_before_discounts := profit_before
            profit_after_discounts := profit_after
            is_free_shipping := args.is_free_shipping
            restock_processed := false
            notes := args.notes }
        -- 4) copy cart items to order lines, decrementing stock
        match processLines code args.order_type db.bundles args.cart.items
            db.variants [] with
        | (some e, _, _) => .error e
        | (none, vs', newLines) =>
          -- 5) finalize grand_total; 6) mark cart converted; commit payload
          let finalOrder := { order0 with
            grand_total := items_total_after_all_discounts + order0.shipping_cost }
          .ok (finalOrder,
            { variants := vs'
              bundles := db.bundles
              profiles := profiles'
              orders := db.orders ++ [finalOrder]
              orderLines := db.orderLines ++ newLines
              cartConverted := fun i =>
                if i = args.cart.id then true else db.cartConverted i })

/-- `OrderService.create_from_cart` under `@transaction.atomic`: on success the
new database state commits; on any exception every effect is rolled back and
the database is exactly the initial one. -/
def createFromCart (env : Env) (args : OrderArgs) (db : DB) :
    Except PyError Order × DB :=
  match createFromCartRaw env args db with
  | .ok (o, db') => (.ok o, db')
  | .error e => (.error e, db)

/-! ## Restocking hook

Embedding of `Order.process_restocking` (`orders/models.py`, lines 166–189). -/

/-- Increments for the constituents of one bundle line of the restocking loop:
each constituent variant's stock grows by `bundle-item quantity × line quantity`. -/
def restockBundleFold : List BundleItem → Nat → (Nat → Variant) → (Nat → Variant)
  | [], _, vs => vs
  | bi :: bis, qty, vs =>
    restockBundleFold bis qty
      (fun i => if i = bi.variant_id then
        let v := vs bi.variant_id
        { v with stock := v.stock + ((bi.quantity * qty : Nat) : Int) }
      else vs i)

/-- The stock increments performed by the restocking loop over the order's
lines (each `save` with `F("stock") + ...`). -/
def restockFold (bundles : Nat → Bundle) :
    List OrderLine → (Nat → Variant) → (Nat → Variant)
  | [], vs => vs
  | line :: rest, vs =>
    if line.line_type = "variant" ∧ line.variant_id.isSome then
      match line.variant_id with
      | some vid =>
        restockFold bundles rest
          (fun i => if i = vid then
            let v := vs vid
            { v with stock := v.stock + (line.quantity : Int) }
          else vs i)
      | none => restockFold bundles rest vs
    else if line.line_type = "bundle" ∧ line.bundle_id.isSome then
      match line.bundle_id with
      | some bid =>
        restockFold bundles rest
          (restockBundleFold (bundles bid).items line.quantity vs)
      | none => restockFold bundles rest vs
    else restockFold bundles rest vs

/-- `Order.process_restocking()`: a no-op unless the order is an issue order
with `restock_processed` still false; otherwise restock every line and flip
`restock_processed`. -/
def processRestocking (o : Order) (lines : List OrderLine)
    (bundles : Nat → Bundle) (vs : Nat → Variant) : Order × (Nat → Variant) :=
  if ¬o.isIssueOrder ∨ o.restock_processed then (o, vs)
  else ({ o with restock_processed := true }, restockFold bundles lines vs)

/-! ## Concrete fixtures

Small concrete database states used by witnesses, counterexamples and
code-divergence evaluations.  They mirror the fixtures of the repository's
own test-suite (`discounts/tests.py`, `orders/tests.py`). -/

/-- A flat variant priced 100.00 with cost 50.00 and stock 10
(the fixture of `DiscountEngineTests`). -/
def discVariant : Variant :=
  { name := "Disc Product - Disc Variant", pricing_mode := "flat",
    sale_price := 100, cost_price := 50, wholesale_price := 80,
    stock := 10, tiers := [] }

/-- A variant table mapping every id to `discVariant`. -/
def discVariants : Nat → Variant := fun _ => discVariant

/-- A cart with one variant line: quantity 1 at the snapshot price 100.00. -/
def discCart : Cart :=
  { id := 1, user_id := 1,
    items := [⟨"variant", some 1, none, 1, 100⟩],
    updated_at := none, is_converted := false }

/-- A 50% cart-subtotal discount allowed to eat all profit
(`max_profit_share = 1.00`) — the fixture of `test_profit_cap_limits_discount`. -/
def bigPercentDiscount : Discount :=
  { id := 1, name := "Big Percent", code := none,
    discount_type := "cart_subtotal", value_type := "percent", value := 50,
    is_active := true, starts_at := none, ends_at := none,
    priority := 100, stackable := true, exclusive := false,
    min_cart_subtotal := none, min_abandoned_minutes := none,
    max_profit_share := 1, target_variants := [] }

/-- A 10% flash-sale discount targeting all variants. -/
def flashSaleDiscount : Discount :=
  { id := 2, name := "Flash", code := none,
    discount_type := "flash_sale", value_type := "percent", value := 10,
    is_active := true, starts_at := none, ends_at := none,
    priority := 100, stackable := true, exclusive := false,
    min_cart_subtotal := none, min_abandoned_minutes := none,
    max_profit_share := 0.75, target_variants := [] }

/-- A cart holding only a bundle line priced 20.00
(the fixture of `test_bundle_costs_in_profit_calculation`). -/
def bundleOnlyCart : Cart :=
  { id := 2, user_id := 1,
    items := [⟨"bundle", none, some 1, 1, 20⟩],
    updated_at := none, is_converted := false }

/-! ## C6 — non-profitable carts accept no discount -/

/-- C6: for every cart whose computed `profit_before` is `≤ 0`,
`apply_discounts` returns immediately with `total_discount = 0`,
`discounted_total = original_total` and an empty applied list, for every
discount configuration and coupon code. -/
theorem applyDiscounts_no_profit_no_discount
    (variants : Nat → Variant) (discounts : List Discount) (cart : Cart)
    (coupon_code : Option String) (now : Rat)
    (h : (computeCartTotalsAndProfit variants cart.items).2.2 ≤ 0) :
    applyDiscounts variants discounts cart coupon_code now =
      .ok ⟨(computeCartTotalsAndProfit variants cart.items).1,
        (computeCartTotalsAndProfit variants cart.items).1, [], 0,
        (computeCartTotalsAndProfit variants cart.items).2.2,
        (computeCartTotalsAndProfit variants cart.items).2.2⟩ := by
  unfold applyDiscounts
  rw [if_pos h]

/-- Witness for C6 at a concrete input: a loss-making cart (one variant line
sold at 40.00 with cost 50.00) yields zero discount even with an aggressive
discount configured. -/
theorem applyDiscounts_no_profit_no_discount_witness :
    (computeCartTotalsAndProfit discVariants
      [⟨"variant", some 1, none, 1, 40⟩]).2.2 ≤ 0 ∧
    applyDiscounts discVariants [bigPercentDiscount]
        ⟨3, 1, [⟨"variant", some 1, none, 1, 40⟩], none, false⟩ none 0 =
      .ok ⟨40, 40, [], 0, 0, 0⟩ := by
  have hle : (computeCartTotalsAndProfit discVariants
      [⟨"variant", some 1, none, 1, 40⟩]).2.2 ≤ 0 := by
    norm_num [computeCartTotalsAndProfit, discVariants, discVariant]
  refine ⟨hle, ?_⟩
  have h := applyDiscounts_no_profit_no_discount discVariants [bigPercentDiscount]
    ⟨3, 1, [⟨"variant", some 1, none, 1, 40⟩], none, false⟩ none 0 hle
  rw [h]
  norm_num [computeCartTotalsAndProfit, discVariants, discVariant]

/-! ## C5 — bundle-only cart: profit and the repository's own test -/

/-- C5 (divergence evaluation): on a cart holding only a bundle line of
price 20.00, `apply_discounts` computes `profit_before = 20`, not `0`: the
bundle line's revenue enters `original_total` while no cost is recorded, so
`profit = max(20 - 0, 0) = 20`.  The claim (and the repository's own test
`test_bundle_costs_in_profit_calculation`, which asserts
`profit_before == 0`) therefore contradicts the code. -/
theorem bundleOnlyCart_profit_is_twenty :
    applyDiscounts discVariants [] bundleOnlyCart none 0 =
      .ok ⟨20, 20, [], 0, 20, 20⟩ ∧ (20 : Rat) ≠ 0 := by
  refine ⟨?_, by norm_num⟩
  norm_num [applyDiscounts, computeCartTotalsAndProfit, bundleOnlyCart,
    discVariants, discVariant, eligibleDiscounts, eligibleFilter, pySorted,
    applyLoop]

/-! ## C4 — product_override / flash_sale per-line amounts -/

/-- C4 (divergence evaluation): `_calculate_discount_amount` for a
`flash_sale` percent-10 discount over a one-line cart (quantity 1, line total
100.00) does not return the claimed `line_total × value / 100 = 10`; it
raises `AttributeError` on `discount.override_price`, because the
`override_price` field is commented out in `discounts/models.py` while
`discounts/engine.py` still reads it on every qualifying variant line. -/
theorem calculateDiscountAmount_flash_sale_raises :
    calculateDiscountAmount flashSaleDiscount
        [⟨"variant", some 1, none, 1, 100⟩] 100 =
      .error (.attributeError "override_price") ∧
    calculateDiscountAmount flashSaleDiscount
        [⟨"variant", some 1, none, 1, 100⟩] 100 ≠ .ok 10 := by
  have h : calculateDiscountAmount flashSaleDiscount
      [⟨"variant", some 1, none, 1, 100⟩] 100 =
      .error (.attributeError "override_price") := by
    norm_num [calculateDiscountAmount, flashSaleDiscount, calcProductAmount]
  exact ⟨h, by rw [h]; exact fun hc => Except.noConfusion hc⟩

/-! ## C1 — the global 25% profit cap -/

/-- Loop invariant of `apply_discounts`: the accumulated
`global_discount_used` never exceeds `global_max_discount`, because every
applied amount is clamped to the remaining global room. -/
theorem applyLoop_used_le_global (items : List CartItem) (pb gm : Rat) :
    ∀ (ds : List Discount) (used current : Rat) (acc : List AppliedDiscount)
      (u c : Rat) (a : List AppliedDiscount),
      used ≤ gm →
      applyLoop items pb gm ds used current acc = .ok (u, c, a) →
      u ≤ gm := by
  intro ds
  induction ds with
  | nil =>
    intro used current acc u c a hle h
    simp only [applyLoop, Except.ok.injEq, Prod.mk.injEq] at h
    exact h.1 ▸ hle
  | cons d rest ih =>
    intro used current acc u c a hle h
    simp only [applyLoop] at h
    split at h
    · simp only [Except.ok.injEq, Prod.mk.injEq] at h
      exact h.1 ▸ hle
    · rename_i hroom
      split at h
      · exact ih used current acc u c a hle h
      · split at h
        · exact Except.noConfusion h
        · rename_i rawRes amount hraw
          split at h
          · exact ih used current acc u c a hle h
          · rename_i hpos
            have hamt : amount ⊓ (pb * (d.max_profit_share ⊓ GLOBAL_MAX_PROFIT_SHARE)
                ⊓ (gm - used)) ≤ gm - used :=
              le_trans (min_le_right _ _) (min_le_right _ _)
            split at h
            · simp only [Except.ok.injEq, Prod.mk.injEq] at h
              rw [← h.1]
              linarith
            · split at h
              · simp only [Except.ok.injEq, Prod.mk.injEq] at h
                rw [← h.1]
                linarith
              · exact ih _ _ _ u c a (by linarith) h

/-- C1: whenever `apply_discounts` returns a result for a cart with positive
pre-discount profit, its `total_discount` never exceeds
`profit_before × 0.25`, for every eligible-discount configuration and every
setting of the individual values and `max_profit_share` columns. -/
theorem applyDiscounts_total_le_quarter_profit
    (variants : Nat → Variant) (discounts : List Discount) (cart : Cart)
    (coupon_code : Option String) (now : Rat) (r : DiscountApplicationResult)
    (h : applyDiscounts variants discounts cart coupon_code now = .ok r)
    (hp : 0 < r.profit_before) :
    r.total_discount ≤ r.profit_before * (0.25 : Rat) := by
  simp only [applyDiscounts] at h
  split at h
  · rename_i hle
    simp only [Except.ok.injEq] at h
    rw [← h] at hp ⊢
    simp only at hp ⊢
    nlinarith
  · rename_i hgt
    have hpb : (0:Rat) < (computeCartTotalsAndProfit variants cart.items).2.2 :=
      not_le.mp hgt
    split at h
    · exact Except.noConfusion h
    · rename_i eligRes elig helig
      split at h
      · exact Except.noConfusion h
      · rename_i loopRes used current applied hloop
        have hgm0 : (0:Rat) ≤ (computeCartTotalsAndProfit variants cart.items).2.2
            * GLOBAL_MAX_PROFIT_SHARE := by
          have hs : (0:Rat) ≤ GLOBAL_MAX_PROFIT_SHARE := by
            norm_num [GLOBAL_MAX_PROFIT_SHARE]
          positivity
        have hinv := applyLoop_used_le_global cart.items
          (computeCartTotalsAndProfit variants cart.items).2.2
          ((computeCartTotalsAndProfit variants cart.items).2.2 * GLOBAL_MAX_PROFIT_SHARE)
          elig 0 (computeCartTotalsAndProfit variants cart.items).1 []
          used current applied hgm0 hloop
        simp only [Except.ok.injEq] at h
        rw [← h]
        simp only
        unfold GLOBAL_MAX_PROFIT_SHARE at hinv
        exact hinv

/-- The engine result of the capped scenario of `test_profit_cap_limits_discount`:
50% requested, clamped to 25% of the 50.00 profit. -/
def capResult : DiscountApplicationResult :=
  { original_total := 100, discounted_total := 175/2,
    applied_discounts := [⟨bigPercentDiscount, 25/2⟩], total_discount := 25/2,
    profit_before := 50, profit_after := 75/2 }

/-- Witness for C1 at the repository's own test scenario: profit 50.00, one
50% cart-subtotal discount with `max_profit_share = 1.00`; the engine applies
12.50 = 50 × 0.25 and the cap bound holds. -/
theorem applyDiscounts_total_le_quarter_profit_witness :
    applyDiscounts discVariants [bigPercentDiscount] discCart none 0 = .ok capResult ∧
    0 < capResult.profit_before ∧
    capResult.total_discount ≤ capResult.profit_before * (0.25 : Rat) := by
  have h : applyDiscounts discVariants [bigPercentDiscount] discCart none 0 =
      .ok capResult := by
    simp [applyDiscounts, eligibleDiscounts, eligibleFilter, couponFalsy,
      Discount.isCurrentlyActive, pySorted, insertByLt, priorityLt, applyLoop,
      calculateDiscountAmount, calcProductAmount, computeCartTotalsAndProfit,
      bigPercentDiscount, discCart, discVariants, discVariant,
      GLOBAL_MAX_PROFIT_SHARE, capResult]
    norm_num
  refine ⟨h, by norm_num [capResult], ?_⟩
  exact applyDiscounts_total_le_quarter_profit discVariants [bigPercentDiscount]
    discCart none 0 capResult h (by norm_num [capResult])

/-! ## C8 — exclusivity and stackability stop the stacking chain -/

/-- Loop invariant of the stacking chain: the loop keeps iterating only after
applying a stackable, non-exclusive discount, so in a successful run every
applied discount except possibly the last one is stackable and non-exclusive. -/
theorem applyLoop_stack_chain (items : List CartItem) (pb gm : Rat) :
    ∀ (ds : List Discount) (used current : Rat) (acc : List AppliedDiscount)
      (u c : Rat) (a : List AppliedDiscount),
      (∀ x ∈ acc, x.disc.exclusive = false ∧ x.disc.stackable = true) →
      applyLoop items pb gm ds used current acc = .ok (u, c, a) →
      ∀ x ∈ a.dropLast, x.disc.exclusive = false ∧ x.disc.stackable = true := by
  intro ds
  induction ds with
  | nil =>
    intro used current acc u c a hacc h
    simp only [applyLoop, Except.ok.injEq, Prod.mk.injEq] at h
    intro x hx
    rw [← h.2.2] at hx
    exact hacc x (List.dropLast_subset acc hx)
  | cons d rest ih =>
    intro used current acc u c a hacc h
    simp only [applyLoop] at h
    split at h
    · simp only [Except.ok.injEq, Prod.mk.injEq] at h
      intro x hx
      rw [← h.2.2] at hx
      exact hacc x (List.dropLast_subset acc hx)
    · split at h
      · exact ih used current acc u c a hacc h
      · split at h
        · exact Except.noConfusion h
        · rename_i rawRes amount hraw
          split at h
          · exact ih used current acc u c a hacc h
          · split at h
            · -- exclusive: the appended discount is last
              simp only [Except.ok.injEq, Prod.mk.injEq] at h
              intro x hx
              rw [← h.2.2, List.dropLast_concat] at hx
              exact hacc x hx
            · split at h
              · -- not stackable: the appended discount is last
                simp only [Except.ok.injEq, Prod.mk.injEq] at h
                intro x hx
                rw [← h.2.2, List.dropLast_concat] at hx
                exact hacc x hx
              · -- stackable and non-exclusive: extend the invariant
                rename_i hexcl hstack
                have hde : d.exclusive = false := by
                  revert hexcl
                  cases d.exclusive <;> simp
                have hds : d.stackable = true := by
                  revert hstack
                  cases d.stackable <;> simp
                refine ih _ _ _ u c a ?_ h
                intro x hx
                rcases List.mem_append.mp hx with hx | hx
                · exact hacc x hx
                · rw [List.mem_singleton.mp hx]
                  exact ⟨hde, hds⟩

/-- C8: in every successful `apply_discounts` run, every applied discount that
is followed by another applied discount is stackable and non-exclusive — once
an exclusive discount is applied no later discount appears, and once a
non-stackable discount is applied no further discount is applied either. -/
theorem applyDiscounts_stacking_chain
    (variants : Nat → Variant) (discounts : List Discount) (cart : Cart)
    (coupon_code : Option String) (now : Rat) (r : DiscountApplicationResult)
    (h : applyDiscounts variants discounts cart coupon_code now = .ok r) :
    ∀ x ∈ r.applied_discounts.dropLast,
      x.disc.exclusive = false ∧ x.disc.stackable = true := by
  simp only [applyDiscounts] at h
  split at h
  · simp only [Except.ok.injEq] at h
    rw [← h]
    intro x hx
    simp at hx
  · split at h
    · exact Except.noConfusion h
    · rename_i eligRes elig helig
      split at h
      · exact Except.noConfusion h
      · rename_i loopRes used current applied hloop
        simp only [Except.ok.injEq] at h
        have := applyLoop_stack_chain cart.items
          (computeCartTotalsAndProfit variants cart.items).2.2
          ((computeCartTotalsAndProfit variants cart.items).2.2 * GLOBAL_MAX_PROFIT_SHARE)
          elig 0 (computeCartTotalsAndProfit variants cart.items).1 []
          used current applied (by intro x hx; simp at hx) hloop
        rw [← h]
        exact this

/-- A second stackable 15%-cap discount at lower priority, used to produce a
two-element applied list. -/
def secondPercentDiscount : Discount :=
  { id := 3, name := "Second", code := none,
    discount_type := "cart_subtotal", value_type := "percent", value := 10,
    is_active := true, starts_at := none, ends_at := none,
    priority := 200, stackable := true, exclusive := false,
    min_cart_subtotal := none, min_abandoned_minutes := none,
    max_profit_share := 0.75, target_variants := [] }

/-- A stackable 10% cart-subtotal discount at priority 100. -/
def firstPercentDiscount : Discount :=
  { id := 4, name := "First", code := none,
    discount_type := "cart_subtotal", value_type := "percent", value := 10,
    is_active := true, starts_at := none, ends_at := none,
    priority := 100, stackable := true, exclusive := false,
    min_cart_subtotal := none, min_abandoned_minutes := none,
    max_profit_share := 0.75, target_variants := [] }

/-- The engine result of stacking two 10% discounts: 10.00 at priority 100,
then 2.50 at priority 200 (the remaining global room). -/
def stackResult : DiscountApplicationResult :=
  { original_total := 100, discounted_total := 175/2,
    applied_discounts := [⟨firstPercentDiscount, 10⟩, ⟨secondPercentDiscount, 5/2⟩],
    total_discount := 25/2, profit_before := 50, profit_after := 75/2 }

/-- Witness for C8 at a concrete two-discount run: both 10% discounts apply
(10.00 then the remaining 2.50 of the global room) and the non-final applied
entry is stackable and non-exclusive. -/
theorem applyDiscounts_stacking_chain_witness :
    applyDiscounts discVariants [firstPercentDiscount, secondPercentDiscount]
        discCart none 0 = .ok stackResult ∧
    ∀ x ∈ stackResult.applied_discounts.dropLast,
      x.disc.exclusive = false ∧ x.disc.stackable = true := by
  have h : applyDiscounts discVariants [firstPercentDiscount, secondPercentDiscount]
      discCart none 0 = .ok stackResult := by
    simp [applyDiscounts, eligibleDiscounts, eligibleFilter, couponFalsy,
      Discount.isCurrentlyActive, pySorted, insertByLt, priorityLt, applyLoop,
      calculateDiscountAmount, calcProductAmount, computeCartTotalsAndProfit,
      firstPercentDiscount, secondPercentDiscount, discCart, discVariants,
      discVariant, GLOBAL_MAX_PROFIT_SHARE, stackResult]
    norm_num
  exact ⟨h, applyDiscounts_stacking_chain discVariants
    [firstPercentDiscount, secondPercentDiscount] discCart none 0 stackResult h⟩

/-! ## C7 — tiered price resolution -/

/-- The `(quantity, weight)` argument pair of a `resolve_price` call that
supplies the single measure `v` on basis `b`: the measure goes into the
quantity slot for `b = "quantity"` and into the weight slot otherwise. -/
def measureArgs (b : String) (v : Rat) : Option Rat × Option Rat :=
  if b = "quantity" then (some v, none) else (none, some v)

theorem measureArgs_quantity (v : Rat) : measureArgs "quantity" v = (some v, none) := by
  simp [measureArgs]

theorem measureArgs_weight (v : Rat) : measureArgs "weight" v = (none, some v) := by
  simp [measureArgs]

/-- C7: for a variant in `tiered` mode, a supplied measure on either basis
(`quantity` or `weight`) and pairwise non-overlapping tiers of that basis,
`resolve_price` returns exactly the tier containing the measure under the
half-open rule — the first candidate in `(min_value, sale_price)` order that
matches — and a value equal to a tier's `max_value` is never matched by that
tier (it belongs to the next one). -/
theorem resolve_price_selects_containing_tier
    (variant : Variant) (v : Rat) (t : TieredPrice) (b : String)
    (hbv : b = "quantity" ∨ b = "weight")
    (hmode : variant.pricing_mode = "tiered")
    (ht : t ∈ variant.tiers) (hb : t.basis = b)
    (hm : t.matchesB (measureArgs b v).1 (measureArgs b v).2 = true)
    (hnool : ∀ t1 ∈ variant.tiers, ∀ t2 ∈ variant.tiers,
      t1.basis = b → t2.basis = b → t1 ≠ t2 →
      ∀ w : Rat, ¬(t1.matchesB (measureArgs b w).1 (measureArgs b w).2 = true
        ∧ t2.matchesB (measureArgs b w).1 (measureArgs b w).2 = true)) :
    resolve_price variant (measureArgs b v).1 (measureArgs b v).2 =
      (t.sale_price, some t.basis, some t.id)
    ∧ ∀ t' ∈ variant.tiers, t'.basis = b →
        ∀ m : Rat, t'.max_value = some m →
          t'.matchesB (measureArgs b m).1 (measureArgs b m).2 = false := by
  have hflat : ¬(variant.pricing_mode = "flat" ∨ variant.tiers = []) := by
    rw [hmode]
    push_neg
    exact ⟨by simp, List.ne_nil_of_mem ht⟩
  rcases hbv with rfl | rfl
  · -- measure supplied as a quantity
    simp only [measureArgs_quantity] at hm hnool ⊢
    constructor
    · have htc : t ∈ variant.tiers.filter (fun x => x.basis = "quantity") :=
        List.mem_filter.mpr ⟨ht, by simp [hb]⟩
      have hcne : variant.tiers.filter (fun x => x.basis = "quantity") ≠ [] :=
        List.ne_nil_of_mem htc
      have hfind : (pySorted keyMinSaleLt
          (variant.tiers.filter (fun x => x.basis = "quantity"))).find?
            (fun x => x.matchesB (some v) none) = some t := by
        apply find?_eq_of_unique
        · exact (mem_pySorted _ _ _).mpr htc
        · exact hm
        · intro x hx hpx
          have hxc := (mem_pySorted _ _ _).mp hx
          have hxt := (List.mem_filter.mp hxc).1
          have hxb : x.basis = "quantity" := by
            have := (List.mem_filter.mp hxc).2
            simpa using this
          by_contra hne
          exact hnool x hxt t ht hxb hb hne v ⟨hpx, hm⟩
      simp only [resolve_price, Option.isSome_some, Option.isSome_none,
        Bool.false_eq_true, if_true, if_false, List.append_nil]
      rw [if_neg hflat, if_neg hcne, hfind]
    · intro t' _ hb' m hmax
      simp only [TieredPrice.matchesB, hb', if_pos, hmax]
      simp only [decide_eq_false_iff_not]
      rintro ⟨_, hlt⟩
      exact lt_irrefl m hlt
  · -- measure supplied as a weight
    simp only [measureArgs_weight] at hm hnool ⊢
    constructor
    · have htc : t ∈ variant.tiers.filter (fun x => x.basis = "weight") :=
        List.mem_filter.mpr ⟨ht, by simp [hb]⟩
      have hcne : variant.tiers.filter (fun x => x.basis = "weight") ≠ [] :=
        List.ne_nil_of_mem htc
      have hfind : (pySorted keyMinSaleLt
          (variant.tiers.filter (fun x => x.basis = "weight"))).find?
            (fun x => x.matchesB none (some v)) = some t := by
        apply find?_eq_of_unique
        · exact (mem_pySorted _ _ _).mpr htc
        · exact hm
        · intro x hx hpx
          have hxc := (mem_pySorted _ _ _).mp hx
          have hxt := (List.mem_filter.mp hxc).1
          have hxb : x.basis = "weight" := by
            have := (List.mem_filter.mp hxc).2
            simpa using this
          by_contra hne
          exact hnool x hxt t ht hxb hb hne v ⟨hpx, hm⟩
      simp only [resolve_price, Option.isSome_some, Option.isSome_none,
        Bool.false_eq_true, if_true, if_false, List.nil_append]
      rw [if_neg hflat, if_neg hcne, hfind]
    · intro t' _ hb' m hmax
      simp only [TieredPrice.matchesB, hb', hmax]
      have hbw : ¬(("weight" : String) = "quantity") := by simp
      rw [if_neg hbw]
      simp only [decide_eq_false_iff_not]
      rintro ⟨_, hlt⟩
      exact lt_irrefl m hlt

/-- Quantity tier `[1, 10) → 9.00` of the spec scenario. -/
def tierLow : TieredPrice :=
  { id := 1, basis := "quantity", unit := "pcs", min_value := 1,
    max_value := some 10, sale_price := 9, cost_price := 0, wholesale_price := 0 }

/-- Quantity tier `[10, ∞) → 7.00` of the spec scenario. -/
def tierHigh : TieredPrice :=
  { id := 2, basis := "quantity", unit := "pcs", min_value := 10,
    max_value := none, sale_price := 7, cost_price := 0, wholesale_price := 0 }

/-- A tiered variant with the two quantity tiers of the spec scenario. -/
def tieredVariant : Variant :=
  { name := "Tiered", pricing_mode := "tiered", sale_price := 9,
    cost_price := 4, wholesale_price := 8, stock := 10,
    tiers := [tierLow, tierHigh] }

/-- Weight tier `[0, 500) → 5.00`. -/
def weightTierLow : TieredPrice :=
  { id := 3, basis := "weight", unit := "g", min_value := 0,
    max_value := some 500, sale_price := 5, cost_price := 0, wholesale_price := 0 }

/-- Weight tier `[500, ∞) → 4.00`. -/
def weightTierHigh : TieredPrice :=
  { id := 4, basis := "weight", unit := "g", min_value := 500,
    max_value := none, sale_price := 4, cost_price := 0, wholesale_price := 0 }

/-- A tiered variant priced by weight with two tiers. -/
def weightVariant : Variant :=
  { name := "ByWeight", pricing_mode := "tiered", sale_price := 5,
    cost_price := 2, wholesale_price := 4, stock := 10,
    tiers := [weightTierLow, weightTierHigh] }

/-- Witness for C7 at the boundary of both bases: resolving quantity 10 picks
the `[10, ∞)` quantity tier at 7.00 while the `[1, 10)` tier rejects its own
`max_value`; resolving weight 500 picks the `[500, ∞)` weight tier at 4.00
while the `[0, 500)` tier rejects its own `max_value`. -/
theorem resolve_price_selects_containing_tier_witness :
    (resolve_price tieredVariant (some 10) none =
        (tierHigh.sale_price, some tierHigh.basis, some tierHigh.id) ∧
      tierLow.matchesB (some 10) none = false) ∧
    (resolve_price weightVariant none (some 500) =
        (weightTierHigh.sale_price, some weightTierHigh.basis, some weightTierHigh.id) ∧
      weightTierLow.matchesB none (some 500) = false) := by
  constructor
  · have hno : ∀ t1 ∈ tieredVariant.tiers, ∀ t2 ∈ tieredVariant.tiers,
        t1.basis = "quantity" → t2.basis = "quantity" → t1 ≠ t2 →
        ∀ w : Rat, ¬(t1.matchesB (measureArgs "quantity" w).1 (measureArgs "quantity" w).2 = true
          ∧ t2.matchesB (measureArgs "quantity" w).1 (measureArgs "quantity" w).2 = true) := by
      intro t1 ht1 t2 ht2 _ _ hne w hw
      rw [measureArgs_quantity] at hw
      simp only [tieredVariant, List.mem_cons, List.mem_singleton,
        List.not_mem_nil, or_false] at ht1 ht2
      obtain ⟨hw1, hw2⟩ := hw
      rcases ht1 with h1 | h1 <;> rcases ht2 with h2 | h2
      · exact hne (h1.trans h2.symm)
      · rw [h1] at hw1
        rw [h2] at hw2
        simp only [TieredPrice.matchesB, tierLow, tierHigh] at hw1 hw2
        norm_num at hw1 hw2
        linarith [hw1.2, hw2]
      · rw [h1] at hw1
        rw [h2] at hw2
        simp only [TieredPrice.matchesB, tierLow, tierHigh] at hw1 hw2
        norm_num at hw1 hw2
        linarith [hw2.2, hw1]
      · exact hne (h1.trans h2.symm)
    have h := resolve_price_selects_containing_tier tieredVariant 10 tierHigh
      "quantity" (Or.inl rfl) rfl (by simp [tieredVariant]) rfl
      (by rw [measureArgs_quantity]; norm_num [TieredPrice.matchesB, tierHigh]) hno
    exact ⟨h.1, h.2 tierLow (by simp [tieredVariant]) rfl 10 rfl⟩
  · have hno : ∀ t1 ∈ weightVariant.tiers, ∀ t2 ∈ weightVariant.tiers,
        t1.basis = "weight" → t2.basis = "weight" → t1 ≠ t2 →
        ∀ w : Rat, ¬(t1.matchesB (measureArgs "weight" w).1 (measureArgs "weight" w).2 = true
          ∧ t2.matchesB (measureArgs "weight" w).1 (measureArgs "weight" w).2 = true) := by
      intro t1 ht1 t2 ht2 _ _ hne w hw
      rw [measureArgs_weight] at hw
      simp only [weightVariant, List.mem_cons, List.mem_singleton,
        List.not_mem_nil, or_false] at ht1 ht2
      obtain ⟨hw1, hw2⟩ := hw
      rcases ht1 with h1 | h1 <;> rcases ht2 with h2 | h2
      · exact hne (h1.trans h2.symm)
      · rw [h1] at hw1
        rw [h2] at hw2
        simp [TieredPrice.matchesB, weightTierLow, weightTierHigh] at hw1 hw2
        linarith [hw1.2, hw2]
      · rw [h1] at hw1
        rw [h2] at hw2
        simp [TieredPrice.matchesB, weightTierLow, weightTierHigh] at hw1 hw2
        linarith [hw2.2, hw1]
      · exact hne (h1.trans h2.symm)
    have h := resolve_price_selects_containing_tier weightVariant 500 weightTierHigh
      "weight" (Or.inr rfl) rfl (by simp [weightVariant]) rfl
      (by rw [measureArgs_weight]; simp [TieredPrice.matchesB, weightTierHigh]) hno
    exact ⟨h.1, h.2 weightTierLow (by simp [weightVariant]) rfl 500 rfl⟩

/-! ## C9 — restocking hook: gating, increments, idempotence -/

/-- Expected restocking contribution of one bundle's constituents to variant
`i`: `bundle-item quantity × line quantity` for each constituent of `i`. -/
def bundleContrib : List BundleItem → Nat → Nat → Int
  | [], _, _ => 0
  | bi :: bis, qty, i =>
    (if bi.variant_id = i then ((bi.quantity * qty : Nat) : Int) else 0)
      + bundleContrib bis qty i

/-- Expected restocking contribution of one order line to variant `i`. -/
def lineContrib (bundles : Nat → Bundle) (line : OrderLine) (i : Nat) : Int :=
  if line.line_type = "variant" ∧ line.variant_id.isSome then
    match line.variant_id with
    | some vid => if vid = i then (line.quantity : Int) else 0
    | none => 0
  else if line.line_type = "bundle" ∧ line.bundle_id.isSome then
    match line.bundle_id with
    | some bid => bundleContrib (bundles bid).items line.quantity i
    | none => 0
  else 0

/-- Total restocking increment of an order's lines for variant `i`. -/
def restockQty (bundles : Nat → Bundle) : List OrderLine → Nat → Int
  | [], _ => 0
  | l :: rest, i => lineContrib bundles l i + restockQty bundles rest i

theorem restockBundleFold_stock (qty : Nat) :
    ∀ (bis : List BundleItem) (vs : Nat → Variant) (i : Nat),
      ((restockBundleFold bis qty vs) i).stock = (vs i).stock + bundleContrib bis qty i := by
  intro bis
  induction bis with
  | nil => intro vs i; simp [restockBundleFold, bundleContrib]
  | cons bi bis ih =>
    intro vs i
    simp only [restockBundleFold, bundleContrib]
    rw [ih]
    by_cases hi : i = bi.variant_id
    · rw [if_pos hi, if_pos hi.symm]
      subst hi
      simp only [if_pos rfl]
      ring
    · rw [if_neg hi, if_neg (fun h => hi h.symm)]
      ring

theorem restockFold_stock (bundles : Nat → Bundle) :
    ∀ (lines : List OrderLine) (vs : Nat → Variant) (i : Nat),
      ((restockFold bundles lines vs) i).stock = (vs i).stock + restockQty bundles lines i := by
  intro lines
  induction lines with
  | nil => intro vs i; simp [restockFold, restockQty]
  | cons l rest ih =>
    intro vs i
    simp only [restockFold, restockQty]
    split
    · rename_i hvar
      match hv : l.variant_id with
      | some vid =>
        rw [ih]
        have hc : lineContrib bundles l i = if vid = i then (l.quantity : Int) else 0 := by
          simp [lineContrib, hvar, hv]
        rw [hc]
        by_cases hi : i = vid
        · rw [if_pos hi, if_pos hi.symm]
          subst hi
          simp only [if_pos rfl]
          ring
        · rw [if_neg hi, if_neg (fun h => hi h.symm)]
          ring
      | none =>
        rw [hv] at hvar
        simp at hvar
    · rename_i hnvar
      split
      · rename_i hbun
        match hb : l.bundle_id with
        | some bid =>
          rw [ih, restockBundleFold_stock]
          have hc : lineContrib bundles l i = bundleContrib (bundles bid).items l.quantity i := by
            simp [lineContrib, hnvar, hbun, hb]
          rw [hc]
          ring
        | none =>
          rw [hb] at hbun
          simp at hbun
      · rename_i hnbun
        rw [ih]
        have hc : lineContrib bundles l i = 0 := by
          simp [lineContrib, hnvar, hnbun]
        rw [hc]
        ring

/-- C9: the restocking hook is gated and idempotent — it is the identity
unless the order is issue-type with `restock_processed` false; when it fires
it increments every variant's stock by exactly the order's line quantities
(bundle-item quantity × line quantity per bundle constituent) and flips
`restock_processed`; and a second call on the result changes nothing. -/
theorem processRestocking_gated_idempotent (o : Order) (lines : List OrderLine)
    (bundles : Nat → Bundle) (vs : Nat → Variant) :
    ((¬o.isIssueOrder = true ∨ o.restock_processed = true) →
      processRestocking o lines bundles vs = (o, vs))
    ∧ (o.isIssueOrder = true → o.restock_processed = false →
      (processRestocking o lines bundles vs).1 = { o with restock_processed := true }
      ∧ ∀ i, (((processRestocking o lines bundles vs).2) i).stock
          = (vs i).stock + restockQty bundles lines i)
    ∧ processRestocking (processRestocking o lines bundles vs).1 lines bundles
        (processRestocking o lines bundles vs).2
      = processRestocking o lines bundles vs := by
  by_cases hgate : ¬o.isIssueOrder = true ∨ o.restock_processed = true
  · have hid : processRestocking o lines bundles vs = (o, vs) := by
      simp only [processRestocking]
      rw [if_pos hgate]
    refine ⟨fun _ => hid, ?_, ?_⟩
    · intro hiss hproc
      rcases hgate with hg | hg
      · exact absurd hiss hg
      · rw [hproc] at hg
        exact Bool.noConfusion hg
    · rw [hid]
      exact hid
  · have hfire : processRestocking o lines bundles vs =
        ({ o with restock_processed := true }, restockFold bundles lines vs) := by
      simp only [processRestocking]
      rw [if_neg hgate]
    refine ⟨fun hg => absurd hg hgate, ?_, ?_⟩
    · intro _ _
      rw [hfire]
      exact ⟨rfl, fun i => restockFold_stock bundles lines vs i⟩
    · rw [hfire]
      simp only [processRestocking]
      simp

/-- A concrete replacement order (the only columns the restocking hook reads
are `order_type` and `restock_processed`). -/
def replacementOrder : Order :=
  { code := "ORD-R", customer := 1, order_type := "replacement",
    delivery_method := "delivery", status := "pending", related_order := some 1,
    shipping_profile_set := false, full_name := "", city_id := 0, city := "",
    region_id := 0, region := "", location := "", client_mobile2 := "",
    items_total := 30, shipping_cost := 0, discount_total := 0,
    grand_total := 30, discount_breakdown := none,
    profit_before_discounts := 14, profit_after_discounts := 14,
    is_free_shipping := true, restock_processed := false, notes := "" }

/-- One variant order line of quantity 2 for the restocking witness. -/
def replacementLine : OrderLine :=
  ⟨"ORD-R", "variant", some 1, none, 2, 15, 30, "V", ""⟩

/-- Witness for C9 at a concrete replacement order with one variant line of
quantity 2. -/
theorem processRestocking_gated_idempotent_witness :
    ((¬replacementOrder.isIssueOrder = true ∨ replacementOrder.restock_processed = true) →
      processRestocking replacementOrder [replacementLine] (fun _ => ⟨"B", 0, []⟩)
        discVariants = (replacementOrder, discVariants))
    ∧ (replacementOrder.isIssueOrder = true → replacementOrder.restock_processed = false →
      (processRestocking replacementOrder [replacementLine] (fun _ => ⟨"B", 0, []⟩)
          discVariants).1 = { replacementOrder with restock_processed := true }
      ∧ ∀ i, (((processRestocking replacementOrder [replacementLine]
            (fun _ => ⟨"B", 0, []⟩) discVariants).2) i).stock
          = (discVariants i).stock
            + restockQty (fun _ => ⟨"B", 0, []⟩) [replacementLine] i)
    ∧ processRestocking (processRestocking replacementOrder [replacementLine]
          (fun _ => ⟨"B", 0, []⟩) discVariants).1 [replacementLine]
        (fun _ => ⟨"B", 0, []⟩)
        (processRestocking replacementOrder [replacementLine]
          (fun _ => ⟨"B", 0, []⟩) discVariants).2
      = processRestocking replacementOrder [replacementLine]
          (fun _ => ⟨"B", 0, []⟩) discVariants :=
  processRestocking_gated_idempotent replacementOrder [replacementLine]
    (fun _ => ⟨"B", 0, []⟩) discVariants

/-! ## C3 — cart conversion marking and (non-)enforcement of single use -/

/-- `True` exactly on the success side of an `Except` result. -/
def isOkE {α : Type} : Except PyError α → Bool
  | .ok _ => true
  | .error _ => false

/-- C3 (amended, positive half): every successful `create_from_cart` run
commits a state in which the source cart is marked converted. -/
theorem createFromCart_marks_converted (env : Env) (args : OrderArgs) (db : DB)
    (h : isOkE (createFromCart env args db).1 = true) :
    (createFromCart env args db).2.cartConverted args.cart.id = true := by
  unfold createFromCart at h ⊢
  cases hraw : createFromCartRaw env args db with
  | error e =>
    rw [hraw] at h
    simp [isOkE] at h
  | ok p =>
    obtain ⟨o, db'⟩ := p
    simp only
    simp only [createFromCartRaw] at hraw
    split at hraw
    · exact Except.noConfusion hraw
    · split at hraw
      · exact Except.noConfusion hraw
      · split at hraw
        · exact Except.noConfusion hraw
        · split at hraw
          · exact Except.noConfusion hraw
          · simp only [Except.ok.injEq, Prod.mk.injEq] at hraw
            rw [← hraw.2]
            simp

/-- The bundle table of the concrete checkout fixtures (no bundles used). -/
def emptyBundles : Nat → Bundle := fun _ => ⟨"B", 0, []⟩

/-- A profile table with no shipping profiles on record. -/
def noProfiles : Nat → Option ShippingAddress := fun _ => none

/-- A cart already marked converted, both on the row and in the database. -/
def convertedCart : Cart := ⟨1, 1, [], none, true⟩

/-- A deterministic environment: time 0, no discounts, four fresh codes. -/
def envDefault : Env := ⟨0, [], "A", "B", "C", "D"⟩

/-- A normal pickup order request from `convertedCart` with no shipping data. -/
def pickupArgs : OrderArgs :=
  { cart := convertedCart, created_by_staff := false,
    created_by_superuser := false, order_type := "normal",
    delivery_method := "pickup", shipping_data := none, related_order := none,
    is_free_shipping := false, shipping_cost := 0, extra_manual_discount := 0,
    notes := "", customer := none, coupon_code := none }

/-- A database in which every cart (in particular cart 1) is already
converted. -/
def convertedDB : DB :=
  { variants := discVariants, bundles := emptyBundles, profiles := noProfiles,
    orders := [], orderLines := [], cartConverted := fun _ => true }

/-- C3 (counterexample): `create_from_cart` never checks the conversion flag —
called on a cart that is already converted (both the row flag and the stored
flag are true), it succeeds and creates another order. -/
theorem convertedCart_reused_creates_order :
    convertedDB.cartConverted convertedCart.id = true ∧
    convertedCart.is_converted = true ∧
    isOkE (createFromCart envDefault pickupArgs convertedDB).1 = true ∧
    (createFromCart envDefault pickupArgs convertedDB).2.orders.length =
      convertedDB.orders.length + 1 := by
  refine ⟨rfl, rfl, ?_, ?_⟩ <;>
  · simp [createFromCart, createFromCartRaw, resolveShippingStep,
      getOrUpdateShippingProfile, hasAnyShipping, orderTotals, applyDiscounts,
      computeCartTotalsAndProfit, processLines, pickCode, isRevenue,
      isAdminOnlyType, isOkE, envDefault, pickupArgs, convertedCart,
      convertedDB, discVariants, discVariant, noProfiles, emptyBundles]

/-- Witness for the amended C3 theorem: the same successful pickup run does
mark the cart converted in the committed state. -/
theorem createFromCart_marks_converted_witness :
    isOkE (createFromCart envDefault pickupArgs convertedDB).1 = true ∧
    (createFromCart envDefault pickupArgs convertedDB).2.cartConverted
      pickupArgs.cart.id = true := by
  have hok : isOkE (createFromCart envDefault pickupArgs convertedDB).1 = true := by
    simp [createFromCart, createFromCartRaw, resolveShippingStep,
      getOrUpdateShippingProfile, hasAnyShipping, orderTotals, applyDiscounts,
      computeCartTotalsAndProfit, processLines, pickCode, isRevenue,
      isAdminOnlyType, isOkE, envDefault, pickupArgs, convertedCart,
      convertedDB, discVariants, discVariant, noProfiles, emptyBundles]
  exact ⟨hok, createFromCart_marks_converted envDefault pickupArgs convertedDB hok⟩

/-! ## C10 — an empty cart converts into an order with no lines -/

/-- The order of a successful result, `none` on failure. -/
def okOrder {α : Type} : Except PyError α → Option α
  | .ok o => some o
  | .error _ => none

/-- C10: a cart with no items is not rejected by `create_from_cart` for a
normal delivery order backed by a complete shipping profile: the call
succeeds, creates no order lines, and the order carries `items_total = 0`,
`discount_total = 0` and `grand_total` equal to the shipping cost (0 under
free shipping), for any extra manual discount, coupon and discount table. -/
theorem createFromCart_empty_cart_succeeds
    (env : Env) (args : OrderArgs) (db : DB) (p : ShippingAddress)
    (hitems : args.cart.items = [])
    (htype : args.order_type = "normal")
    (hdel : args.delivery_method = "delivery")
    (hsd : args.shipping_data = none)
    (hprof : db.profiles (args.customer.getD args.cart.user_id) = some p)
    (hinfo : p.hasShippingInfo = true) :
    (okOrder (createFromCart env args db).1).map
        (fun o => (o.items_total, o.discount_total, o.grand_total)) =
      some (0, 0, if args.is_free_shipping then 0 else args.shipping_cost) ∧
    (createFromCart env args db).2.orderLines = db.orderLines := by
  have hship : resolveShippingStep (args.customer.getD args.cart.user_id)
      args.delivery_method args.shipping_data db.profiles =
      .ok (some p, db.profiles) := by
    rw [hdel, hsd]
    simp [resolveShippingStep, getOrUpdateShippingProfile, hasAnyShipping,
      hprof, hinfo]
  have htot : orderTotals db.variants env.discounts args.cart args.coupon_code
      env.now args.order_type = .ok (0, 0, 0, 0, 0, []) := by
    rw [htype]
    simp [orderTotals, isRevenue, applyDiscounts, computeCartTotalsAndProfit,
      hitems]
  have hextra : (if (0:Rat) < max args.extra_manual_discount 0 then (0:Rat)
      else max args.extra_manual_discount 0) = 0 := by
    by_cases hc : (0:Rat) < max args.extra_manual_discount 0
    · rw [if_pos hc]
    · rw [if_neg hc]
      exact le_antisymm (not_lt.mp hc) (le_max_right _ _)
  have hgate : ¬(isAdminOnlyType args.order_type = true
      ∧ ¬args.created_by_staff = true ∧ ¬args.created_by_superuser = true) := by
    rw [htype]
    simp [isAdminOnlyType]
  simp only [createFromCart, createFromCartRaw, hship, htot, hitems, hgate,
    if_false, processLines]
  refine ⟨?_, by simp⟩
  simp only [okOrder, Option.map, hextra, Prod.mk.injEq]
  norm_num

/-- An empty cart belonging to user 2. -/
def emptyCart : Cart := ⟨4, 2, [], none, false⟩

/-- A complete shipping profile (`city_id` and `region_id` set). -/
def profileOK : ShippingAddress := ⟨"Test User", 1, "Baghdad", 2, "Karrada", "Street 1", none⟩

/-- A database whose user 2 has the complete profile `profileOK`. -/
def profDB : DB :=
  { variants := discVariants, bundles := emptyBundles,
    profiles := fun i => if i = 2 then some profileOK else none,
    orders := [], orderLines := [], cartConverted := fun _ => false }

/-- A normal delivery order request for the empty cart, with shipping cost
5.00 and a manual discount request of 3.00 (clamped to 0 by the code). -/
def emptyCartArgs : OrderArgs :=
  { cart := emptyCart, created_by_staff := false, created_by_superuser := false,
    order_type := "normal", delivery_method := "delivery", shipping_data := none,
    related_order := none, is_free_shipping := false, shipping_cost := 5,
    extra_manual_discount := 3, notes := "", customer := none,
    coupon_code := none }

/-- Witness for C10: converting the concrete empty cart succeeds with no
order lines, zero items/discount totals, and `grand_total` = 5.00 shipping. -/
theorem createFromCart_empty_cart_succeeds_witness :
    (okOrder (createFromCart envDefault emptyCartArgs profDB).1).map
        (fun o => (o.items_total, o.discount_total, o.grand_total)) =
      some (0, 0, if emptyCartArgs.is_free_shipping then 0
        else emptyCartArgs.shipping_cost) ∧
    (createFromCart envDefault emptyCartArgs profDB).2.orderLines =
      profDB.orderLines :=
  createFromCart_empty_cart_succeeds envDefault emptyCartArgs profDB profileOK
    rfl rfl rfl rfl rfl (by decide)

/-! ## C2 — insufficient stock aborts checkout with full rollback -/

/-- A cart item that requires more units of some variant (directly, or through
one bundle constituent) than that variant's current stock. -/
def offendingItem (vs : Nat → Variant) (bundles : Nat → Bundle) (it : CartItem) : Prop :=
  (it.line_type = "variant" ∧ ∃ vid, it.variant_id = some vid ∧
    (vs vid).stock < (it.quantity : Int))
  ∨ (it.line_type = "bundle" ∧ ∃ bid, it.bundle_id = some bid ∧
    ∃ bi ∈ (bundles bid).items,
      (vs bi.variant_id).stock < ((bi.quantity * it.quantity : Nat) : Int))

/-- The first component of a line-loop result is one of the two
insufficient-stock `ValueError`s. -/
def isInsufficientStockErr : Option PyError → Bool
  | some (.valueError m) => m = insufficientVariantMsg ∨ m = insufficientBundleMsg
  | _ => false

/-- A checkout result failed with one of the two insufficient-stock errors. -/
def failsInsufficientStock : Except PyError Order → Bool
  | .error (.valueError m) => m = insufficientVariantMsg ∨ m = insufficientBundleMsg
  | _ => false

theorem decStock_le (vs : Nat → Variant) (vid : Nat) (q : Nat) (i : Nat) :
    ((decStock vs vid q) i).stock ≤ (vs i).stock := by
  unfold decStock
  by_cases hi : i = vid
  · subst hi
    rw [if_pos rfl]
    simp only
    omega
  · rw [if_neg hi]

theorem processBundleItems_le (qty : Nat) :
    ∀ (bis : List BundleItem) (vs : Nat → Variant) (i : Nat),
      (((processBundleItems qty bis vs).2) i).stock ≤ (vs i).stock := by
  intro bis
  induction bis with
  | nil => intro vs i; simp [processBundleItems]
  | cons bi bis ih =>
    intro vs i
    simp only [processBundleItems]
    split
    · exact le_trans (ih _ i) (decStock_le vs bi.variant_id _ i)
    · simp

theorem processBundleItems_err (qty : Nat) :
    ∀ (bis : List BundleItem) (vs : Nat → Variant),
      (processBundleItems qty bis vs).1 = none ∨
      (processBundleItems qty bis vs).1 = some (.valueError insufficientBundleMsg) := by
  intro bis
  induction bis with
  | nil => intro vs; simp [processBundleItems]
  | cons bi bis ih =>
    intro vs
    simp only [processBundleItems]
    split
    · exact ih _
    · simp

theorem processBundleItems_insufficient (qty : Nat) :
    ∀ (bis : List BundleItem) (vs : Nat → Variant),
      (∃ bi ∈ bis, (vs bi.variant_id).stock < ((bi.quantity * qty : Nat) : Int)) →
      (processBundleItems qty bis vs).1 = some (.valueError insufficientBundleMsg) := by
  intro bis
  induction bis with
  | nil =>
    intro vs h
    simp at h
  | cons bi0 bis ih =>
    intro vs h
    simp only [processBundleItems]
    split
    · rename_i hok
      apply ih
      obtain ⟨bi, hbi, hlt⟩ := h
      rcases List.mem_cons.mp hbi with hbi | hbi
      · subst hbi
        exact absurd hok (not_le.mpr hlt).elim
      · exact ⟨bi, hbi, lt_of_le_of_lt (decStock_le vs bi0.variant_id _ bi.variant_id) hlt⟩
    · simp

theorem processBundleItems_nonneg (qty : Nat) :
    ∀ (bis : List BundleItem) (vs : Nat → Variant),
      (∀ i, 0 ≤ (vs i).stock) →
      ∀ i, 0 ≤ (((processBundleItems qty bis vs).2) i).stock := by
  intro bis
  induction bis with
  | nil => intro vs h i; simpa [processBundleItems] using h i
  | cons bi bis ih =>
    intro vs h i
    simp only [processBundleItems]
    split
    · rename_i hok
      apply ih
      intro j
      unfold decStock
      by_cases hj : j = bi.variant_id
      · subst hj
        rw [if_pos rfl]
        simp only
        omega
      · rw [if_neg hj]
        exact h j
    · exact h i

theorem processLines_le (code ot : String) (bundles : Nat → Bundle) :
    ∀ (items : List CartItem) (vs : Nat → Variant) (acc : List OrderLine) (i : Nat),
      (((processLines code ot bundles items vs acc).2.1) i).stock ≤ (vs i).stock := by
  intro items
  induction items with
  | nil => intro vs acc i; simp [processLines]
  | cons it rest ih =>
    intro vs acc i
    simp only [processLines]
    split
    · split
      · rename_i vid hvid
        split
        · split
          · exact le_trans (ih _ _ i) (decStock_le vs vid it.quantity i)
          · simp
        · exact ih _ _ i
      · exact ih _ _ i
    · split
      · split
        · rename_i bid hbid
          split
          · split
            · rename_i e vs' hpb
              have := processBundleItems_le it.quantity (bundles bid).items vs i
              rw [hpb] at this
              simpa using this
            · rename_i vs' hpb
              have := processBundleItems_le it.quantity (bundles bid).items vs i
              rw [hpb] at this
              exact le_trans (ih _ _ i) this
          · exact ih _ _ i
        · simp
      · exact ih _ _ i

theorem processLines_nonneg (code ot : String) (bundles : Nat → Bundle) :
    ∀ (items : List CartItem) (vs : Nat → Variant) (acc : List OrderLine),
      (∀ i, 0 ≤ (vs i).stock) →
      ∀ i, 0 ≤ (((processLines code ot bundles items vs acc).2.1) i).stock := by
  intro items
  induction items with
  | nil => intro vs acc h i; simpa [processLines] using h i
  | cons it rest ih =>
    intro vs acc h i
    simp only [processLines]
    split
    · split
      · rename_i vid hvid
        split
        · split
          · rename_i hok
            apply ih
            intro j
            unfold decStock
            by_cases hj : j = vid
            · subst hj
              rw [if_pos rfl]
              simp only
              omega
            · rw [if_neg hj]
              exact h j
          · exact h i
        · exact ih _ _ h i
      · exact ih _ _ h i
    · split
      · split
        · rename_i bid hbid
          split
          · split
            · rename_i e vs' hpb
              have := processBundleItems_nonneg it.quantity (bundles bid).items vs h i
              rw [hpb] at this
              simpa using this
            · rename_i vs' hpb
              apply ih
              intro j
              have := processBundleItems_nonneg it.quantity (bundles bid).items vs h j
              rw [hpb] at this
              exact this
          · exact ih _ _ h i
        · exact h i
      · exact ih _ _ h i

theorem offendingItem_mono (vs vs' : Nat → Variant) (bundles : Nat → Bundle)
    (it : CartItem) (hle : ∀ i, (vs' i).stock ≤ (vs i).stock)
    (h : offendingItem vs bundles it) : offendingItem vs' bundles it := by
  rcases h with ⟨hlt, vid, hvid, hs⟩ | ⟨hlt, bid, hbid, bi, hbi, hs⟩
  · exact Or.inl ⟨hlt, vid, hvid, lt_of_le_of_lt (hle vid) hs⟩
  · exact Or.inr ⟨hlt, bid, hbid, bi, hbi, lt_of_le_of_lt (hle bi.variant_id) hs⟩

/-- The central failure lemma: if some cart line needs more than the current
stock of its variant (or of a bundle constituent), the line loop of
`create_from_cart` ends in one of the two insufficient-stock errors —
stock only shrinks during the loop, so the shortfall cannot heal. -/
theorem processLines_insufficient (code ot : String) (bundles : Nat → Bundle)
    (hrev : isRevenue ot = true) :
    ∀ (items : List CartItem) (vs : Nat → Variant) (acc : List OrderLine),
      (∀ it ∈ items, it.structValid) →
      (∃ it ∈ items, offendingItem vs bundles it) →
      isInsufficientStockErr (processLines code ot bundles items vs acc).1 = true := by
  intro items
  induction items with
  | nil =>
    intro vs acc _ hoff
    simp at hoff
  | cons it0 rest ih =>
    intro vs acc hvalid hoff
    have hval0 : it0.structValid := hvalid it0 (List.mem_cons_self _ _)
    have hvalr : ∀ it ∈ rest, it.structValid :=
      fun it hit => hvalid it (List.mem_cons_of_mem _ hit)
    simp only [processLines]
    rcases hval0 with ⟨hlt, hsome, hbnone⟩ | ⟨hlt, hsome, hvnone⟩
    · -- variant line
      rw [if_pos hlt]
      match hv : it0.variant_id with
      | none =>
        rw [hv] at hsome
        simp at hsome
      | some vid =>
        rw [hrev]
        simp only [if_true]
        split
        · rename_i hok
          apply ih _ _ hvalr
          obtain ⟨it, hit, hoffit⟩ := hoff
          rcases List.mem_cons.mp hit with hit | hit
          · subst hit
            rcases hoffit with ⟨_, vid', hvid', hs⟩ | ⟨hbt, _⟩
            · rw [hv] at hvid'
              obtain rfl : vid = vid' := Option.some.injEq _ _ ▸ hvid'.symm ▸ rfl
              exact absurd hok (not_le.mpr (by
                rw [hvid'] at hv
                exact hs))
            · rw [hlt] at hbt
              exact absurd hbt (by simp)
          · exact ⟨it, hit,
              offendingItem_mono vs _ bundles it
                (fun i => decStock_le vs vid it0.quantity i) hoffit⟩
        · simp [isInsufficientStockErr, insufficientVariantMsg]
    · -- bundle line
      have hltne : ¬(it0.line_type = "variant") := by
        rw [hlt]
        simp
      rw [if_neg hltne, if_pos hlt]
      match hb : it0.bundle_id with
      | none =>
        rw [hb] at hsome
        simp at hsome
      | some bid =>
        rw [hrev]
        simp only [if_true]
        split
        · rename_i e vs' hpb
          have hshape := processBundleItems_err it0.quantity (bundles bid).items vs
          rw [hpb] at hshape
          rcases hshape with hsh | hsh
          · exact Option.noConfusion hsh
          · simp only [Option.some.injEq] at hsh
            simp [hsh, isInsufficientStockErr, insufficientBundleMsg]
        · rename_i vs' hpb
          apply ih _ _ hvalr
          obtain ⟨it, hit, hoffit⟩ := hoff
          rcases List.mem_cons.mp hit with hit | hit
          · subst hit
            rcases hoffit with ⟨hvt, _⟩ | ⟨_, bid', hbid', bi, hbi, hs⟩
            · exact absurd hvt hltne
            · rw [hb] at hbid'
              have hbb : bid = bid' := Option.some.inj hbid'
              subst hbb
              have hcontra := processBundleItems_insufficient it.quantity
                (bundles bid).items vs ⟨bi, hbi, hs⟩
              rw [hpb] at hcontra
              exact Option.noConfusion hcontra
          · refine ⟨it, hit, offendingItem_mono vs _ bundles it ?_ hoffit⟩
            intro i
            have hle := processBundleItems_le it0.quantity (bundles bid).items vs i
            rw [hpb] at hle
            exact hle

/-- C2: for a revenue order type, once `create_from_cart` reaches the
stock-adjustment loop (authorization passed, shipping profile resolved,
discount totals computed), any cart line requiring more units than its
variant's current stock — directly or through a bundle constituent — makes
the call fail with an insufficient-stock error, and the committed database is
exactly the initial one: no order, no order lines, no stock decrement, no
conversion flag; and stock stays non-negative. -/
theorem createFromCart_insufficient_stock_rolls_back
    (env : Env) (args : OrderArgs) (db : DB)
    (profileOpt : Option ShippingAddress) (profiles' : Nat → Option ShippingAddress)
    (tot : Rat × Rat × Rat × Rat × Rat × List AppliedDiscount)
    (hrev : isRevenue args.order_type = true)
    (hvalid : ∀ it ∈ args.cart.items, it.structValid)
    (hgate : ¬(isAdminOnlyType args.order_type = true
      ∧ ¬args.created_by_staff = true ∧ ¬args.created_by_superuser = true))
    (hship : resolveShippingStep (args.customer.getD args.cart.user_id)
      args.delivery_method args.shipping_data db.profiles = .ok (profileOpt, profiles'))
    (htot : orderTotals db.variants env.discounts args.cart args.coupon_code
      env.now args.order_type = .ok tot)
    (hoff : ∃ it ∈ args.cart.items, offendingItem db.variants db.bundles it) :
    failsInsufficientStock (createFromCart env args db).1 = true ∧
    (createFromCart env args db).2 = db ∧
    ((∀ i, 0 ≤ (db.variants i).stock) →
      ∀ i, 0 ≤ ((createFromCart env args db).2.variants i).stock) := by
  obtain ⟨t1, t2, t3, t4, t5, t6⟩ := tot
  set code := pickCode (fun c => db.orders.any (fun o => o.code = c))
    env.c0 env.c1 env.c2 env.c3 with hcode
  have hins := processLines_insufficient code args.order_type db.bundles hrev
    args.cart.items db.variants [] hvalid hoff
  rcases hpl : processLines code args.order_type db.bundles args.cart.items
    db.variants [] with ⟨err, vs', nl⟩
  rw [hpl] at hins
  cases err with
  | none => simp [isInsufficientStockErr] at hins
  | some e =>
    have hraw : createFromCartRaw env args db = .error e := by
      simp only [createFromCartRaw, if_neg hgate, hship, htot, ← hcode, hpl]
    have hcc : createFromCart env args db = (.error e, db) := by
      unfold createFromCart
      rw [hraw]
    rw [hcc]
    refine ⟨?_, rfl, fun h i => h i⟩
    cases e with
    | valueError m =>
      simp only [isInsufficientStockErr] at hins
      simp only [failsInsufficientStock]
      exact hins
    | attributeError a => simp [isInsufficientStockErr] at hins

/-- A flat variant with only 1 unit in stock. -/
def lowStockVariant : Variant :=
  { name := "Order Product - Variant", pricing_mode := "flat",
    sale_price := 15, cost_price := 8, wholesale_price := 10,
    stock := 1, tiers := [] }

/-- A database where every variant has 1 unit in stock and user 2 has a
complete shipping profile. -/
def lowStockDB : DB :=
  { variants := fun _ => lowStockVariant, bundles := emptyBundles,
    profiles := fun i => if i = 2 then some profileOK else none,
    orders := [], orderLines := [], cartConverted := fun _ => false }

/-- A cart of user 2 requesting 2 units of variant 1. -/
def overCart : Cart := ⟨5, 2, [⟨"variant", some 1, none, 2, 15⟩], none, false⟩

/-- A normal delivery order request for `overCart`. -/
def overArgs : OrderArgs :=
  { cart := overCart, created_by_staff := false, created_by_superuser := false,
    order_type := "normal", delivery_method := "delivery", shipping_data := none,
    related_order := none, is_free_shipping := false, shipping_cost := 0,
    extra_manual_discount := 0, notes := "", customer := none,
    coupon_code := none }

/-- Witness for C2: ordering 2 units with 1 in stock fails with the
insufficient-stock error and leaves the database untouched. -/
theorem createFromCart_insufficient_stock_rolls_back_witness :
    failsInsufficientStock (createFromCart envDefault overArgs lowStockDB).1 = true ∧
    (createFromCart envDefault overArgs lowStockDB).2 = lowStockDB ∧
    ((∀ i, 0 ≤ (lowStockDB.variants i).stock) →
      ∀ i, 0 ≤ ((createFromCart envDefault overArgs lowStockDB).2.variants i).stock) := by
  have hship : resolveShippingStep
      (overArgs.customer.getD overArgs.cart.user_id) overArgs.delivery_method
      overArgs.shipping_data lowStockDB.profiles =
      .ok (some profileOK, lowStockDB.profiles) := by
    simp [resolveShippingStep, getOrUpdateShippingProfile, hasAnyShipping,
      overArgs, overCart, lowStockDB, profileOK, ShippingAddress.hasShippingInfo]
  have htot : orderTotals lowStockDB.variants envDefault.discounts overArgs.cart
      overArgs.coupon_code envDefault.now overArgs.order_type =
      .ok (30, 0, 30, 14, 14, []) := by
    simp [orderTotals, isRevenue, applyDiscounts, computeCartTotalsAndProfit,
      eligibleDiscounts, eligibleFilter, pySorted, applyLoop, overArgs, overCart,
      lowStockDB, lowStockVariant, envDefault]
    norm_num
  exact createFromCart_insufficient_stock_rolls_back envDefault overArgs
    lowStockDB (some profileOK) lowStockDB.profiles (30, 0, 30, 14, 14, [])
    rfl (by decide) (by decide) hship htot
    ⟨⟨"variant", some 1, none, 2, 15⟩, by simp [overArgs, overCart],
      Or.inl ⟨rfl, 1, rfl, by decide⟩⟩
